import Mathlib

/-!
Shallow embedding of the Portfolio repository's stateful logic:
the theme-preference store (src/contexts/ThemeContext.tsx) and the
contact-form submission handler (Contact component, handleSubmit).

Browser localStorage is modelled as an association list of string keys to
string values together with an availability flag; an unavailable storage
makes every access raise, modelled by `Except Unit`.  Uncaught JavaScript
exceptions are modelled by propagating the `Except` error.  The system
color-scheme signal and the presence of a `window` object are modelled by
an explicit environment record.
-/

namespace Portfolio

/-- Browser environment: whether a `window` object exists and the current
value of the `(prefers-color-scheme: dark)` media query. -/
structure Env where
  hasWindow : Bool
  prefersDark : Bool
deriving DecidableEq, Repr

/-- Association-list read used by the localStorage model: first binding for
the key wins, `none` when the key is absent (localStorage.getItem returning
null). -/
def lookupKey : List (String × String) → String → Option String
  | [], _ => none
  | (k, v) :: rest, key => if key = k then some v else lookupKey rest key

/-- localStorage model: the stored key-value bindings plus an availability
flag; when storage is unavailable every access raises. -/
structure Storage where
  available : Bool
  items : List (String × String)
deriving DecidableEq, Repr

/-- localStorage.getItem: returns the stored string or null; raises when
storage is unavailable. -/
def Storage.getItem (st : Storage) (k : String) : Except Unit (Option String) :=
  if st.available then .ok (lookupKey st.items k) else .error ()

/-- localStorage.setItem: stores a binding (newest binding shadows older
ones, which models overwriting); raises when storage is unavailable. -/
def Storage.setItem (st : Storage) (k v : String) : Except Unit Storage :=
  if st.available then .ok ⟨st.available, (k, v) :: st.items⟩ else .error ()

/-- localStorage.removeItem: drops every binding for the key; raises when
storage is unavailable. -/
def Storage.removeItem (st : Storage) (k : String) : Except Unit Storage :=
  if st.available then .ok ⟨st.available, st.items.filter (fun p => p.1 ≠ k)⟩
  else .error ()

def THEME_STORAGE_KEY : String := "portfolio-theme"

def SYSTEM_PREFERENCE_KEY : String := "portfolio-use-system"

/-- ThemeContext.tsx getSystemTheme: light outside a browser, otherwise
the media-query signal. -/
def getSystemTheme (env : Env) : String :=
  if env.hasWindow = false then "light"
  else if env.prefersDark then "dark" else "light"

/-- Result of getInitialTheme: the resolved theme string and whether it
came from the system signal (isSystem = true) or from an explicit persisted
choice (isSystem = false). -/
structure InitialTheme where
  theme : String
  isSystem : Bool
deriving DecidableEq, Repr

/-- JavaScript truthiness of a `string | null` value: null and the empty
string are falsy, every other string is truthy. -/
def truthy : Option String → Bool
  | none => false
  | some s => s ≠ ""

/-- ThemeContext.tsx getInitialTheme.  Outside a browser it returns light /
system without touching storage.  Otherwise it reads the two keys (each read
can raise, and the source has no try/catch, so the error propagates) and
takes the explicit branch exactly when `storedTheme && useSystem !== 'true'`
holds under JavaScript truthiness. -/
def getInitialTheme (env : Env) (st : Storage) : Except Unit InitialTheme :=
  if env.hasWindow = false then .ok ⟨"light", true⟩
  else
    match st.getItem THEME_STORAGE_KEY with
    | .error e => .error e
    | .ok storedTheme =>
      match st.getItem SYSTEM_PREFERENCE_KEY with
      | .error e => .error e
      | .ok useSystem =>
        if truthy storedTheme ∧ useSystem ≠ some "true" then
          .ok ⟨storedTheme.getD "", false⟩
        else
          .ok ⟨getSystemTheme env, true⟩

/-- React state of the ThemeProvider: the current theme string and the
isSystemPreference flag. -/
structure ProviderState where
  theme : String
  isSystemPreference : Bool
deriving DecidableEq, Repr

/-- ThemeContext.tsx setTheme: updates the React state to the new theme with
isSystemPreference = false, then writes the two storage keys (writes can
raise; the source has no try/catch, so the error propagates). -/
def setTheme (newTheme : String) (s : ProviderState) (st : Storage) :
    Except Unit (ProviderState × Storage) :=
  let s' : ProviderState := { theme := newTheme, isSystemPreference := false }
  match st.setItem THEME_STORAGE_KEY newTheme with
  | .error e => .error e
  | .ok st1 =>
    match st1.setItem SYSTEM_PREFERENCE_KEY "false" with
    | .error e => .error e
    | .ok st2 => .ok (s', st2)

/-- ThemeContext.tsx toggleTheme: setTheme of the opposite of the current
theme (anything other than the string light toggles to light). -/
def toggleTheme (s : ProviderState) (st : Storage) :
    Except Unit (ProviderState × Storage) :=
  let newTheme := if s.theme = "light" then "dark" else "light"
  setTheme newTheme s st

/-- ThemeContext.tsx resetToSystemPreference: resyncs the state to the
current system signal with isSystemPreference = true, removes the theme key
and writes the use-system flag (storage calls can raise; no try/catch in the
source, so the error propagates). -/
def resetToSystemPreference (env : Env) (s : ProviderState) (st : Storage) :
    Except Unit (ProviderState × Storage) :=
  let systemTheme := getSystemTheme env
  let s' : ProviderState := { theme := systemTheme, isSystemPreference := true }
  match st.removeItem THEME_STORAGE_KEY with
  | .error e => .error e
  | .ok st1 =>
    match st1.setItem SYSTEM_PREFERENCE_KEY "true" with
    | .error e => .error e
    | .ok st2 => .ok (s', st2)

/-- The media-query change listener of the ThemeProvider effect is
registered exactly while isSystemPreference is true: the effect returns
early when the flag is false, and its cleanup removes the listener when the
flag flips. -/
def subscribedToSystem (s : ProviderState) : Bool := s.isSystemPreference

/-- A `(prefers-color-scheme: dark)` change event: when the listener is
registered (isSystemPreference true) the handler sets the theme from the
event; otherwise no listener is attached and the state is unchanged. -/
def systemSignalChange (matchesDark : Bool) (s : ProviderState) : ProviderState :=
  if s.isSystemPreference then
    { s with theme := if matchesDark then "dark" else "light" }
  else s

/-! Contact form submission handler (Contact component, handleSubmit). -/

/-- Status of the contact form, as in the FormStatus type of the Contact
component. -/
inductive FormStatus
  | idle
  | submitting
  | success
  | error
deriving DecidableEq, Repr

/-- The three controlled fields of the contact form. -/
structure FormData where
  name : String
  email : String
  message : String
deriving DecidableEq, Repr

/-- React state of the Contact component that handleSubmit touches. -/
structure ContactState where
  formData : FormData
  status : FormStatus
  errorMessage : String
deriving DecidableEq, Repr

/-- personalInfo.email from the data module, used in the missing-key error
message. -/
def personalInfoEmail : String := "dalupang.juztyneclever1@gmail.com"

/-- Outcome of the fetch to the form-relay endpoint, as observed by
handleSubmit: either the fetch / response.json() promise rejected (with the
thrown value's message when the value was an Error, `none` otherwise), or a
JSON response was obtained carrying a success flag and an optional message
field. -/
inductive FetchOutcome
  | networkError (msg : Option String)
  | response (success : Bool) (message : Option String)
deriving DecidableEq, Repr

/-- Whether the outcome is the success case (response JSON with success
true). -/
def FetchOutcome.isSuccess : FetchOutcome → Bool
  | .response true _ => true
  | _ => false

/-- JavaScript `a || b` on a `string | undefined` value: undefined and the
empty string select the fallback. -/
def jsOr : Option String → String → String
  | none, d => d
  | some s, d => if s = "" then d else s

/-- handleSubmit of the Contact component.  Returns the updated component
state together with the delay (ms) of a scheduled `setStatus('idle')`
timeout, `none` when no timeout was scheduled.  It first sets status to
submitting and clears the error message; with an empty access key it sets an
error status with a direct-email message and returns (no timeout); otherwise
a success response clears the form and schedules a 5000 ms reset, and both a
non-success response (rethrown as an Error inside the try) and a rejected
fetch land in the catch block, which sets an error status and schedules a
5000 ms reset.  Every branch returns normally: the handler never throws. -/
def handleSubmit (accessKey : String) (outcome : FetchOutcome)
    (s : ContactState) : ContactState × Option Nat :=
  let s1 := { s with status := FormStatus.submitting, errorMessage := "" }
  if accessKey = "" then
    ({ s1 with
       status := FormStatus.error,
       errorMessage :=
         "Contact form is not configured. Please email me directly at "
           ++ personalInfoEmail },
      none)
  else
    match outcome with
    | .response true _ =>
        ({ s1 with
           status := FormStatus.success,
           formData := ⟨"", "", ""⟩ },
          some 5000)
    | .response false message =>
        ({ s1 with
           status := FormStatus.error,
           errorMessage := jsOr message "Failed to send message" },
          some 5000)
    | .networkError msg =>
        ({ s1 with
           status := FormStatus.error,
           errorMessage :=
             msg.getD "Failed to send message. Please try again." },
          some 5000)

/-! Helper lemmas shared by the claim theorems. -/

theorem lookupKey_filter_self (l : List (String × String)) (k : String) :
    lookupKey (l.filter (fun p => p.1 ≠ k)) k = none := by
  induction l with
  | nil => rfl
  | cons p rest ih =>
    by_cases h : p.1 = k
    · simpa [List.filter_cons, h] using ih
    · have h' : ¬ (k = p.1) := fun hk => h hk.symm
      simpa [List.filter_cons, h, lookupKey, h'] using ih

/-! Claim theorems. -/

/-- Claim C8: run outside a browser context (no window object), for every
system-signal value and every storage state (even an unavailable one, which
is never touched), getInitialTheme fails safe to the light theme with
source system. -/
theorem getInitial_no_window (pd : Bool) (st : Storage) :
    getInitialTheme ⟨false, pd⟩ st = .ok ⟨"light", true⟩ := rfl

/-- Claim C10: getInitialTheme does not validate the persisted value: for
every non-empty string v stored under the theme key, when the use-system
flag is not the string true, it returns that string verbatim as the theme
with source explicit, even when v is neither light nor dark. -/
theorem getInitial_no_validation (pd : Bool) (st : Storage) (v : String)
    (hA : st.available = true) (hv : v ≠ "")
    (ht : lookupKey st.items THEME_STORAGE_KEY = some v)
    (hu : lookupKey st.items SYSTEM_PREFERENCE_KEY ≠ some "true") :
    getInitialTheme ⟨true, pd⟩ st = .ok ⟨v, false⟩ := by
  simp [getInitialTheme, Storage.getItem, hA, ht, truthy, hv, hu]

/-- Witness for getInitial_no_validation: the stored string blue is neither
light nor dark, yet it is returned verbatim with source explicit. -/
theorem getInitial_no_validation_witness :
    (⟨true, [(THEME_STORAGE_KEY, "blue")]⟩ : Storage).available = true ∧
    ("blue" : String) ≠ "" ∧
    getInitialTheme ⟨true, false⟩ ⟨true, [(THEME_STORAGE_KEY, "blue")]⟩ =
      .ok ⟨"blue", false⟩ :=
  ⟨rfl, by decide,
    getInitial_no_validation false ⟨true, [(THEME_STORAGE_KEY, "blue")]⟩
      "blue" rfl (by decide) rfl (by decide)⟩

/-- Claim C1, counterexample: with the empty string stored under the theme
key and no use-system flag, a value is persisted under the theme key and
the flag is not the string true, yet getInitialTheme does not return the
persisted value with source explicit: it returns the system signal (dark
here) with source system, because JavaScript truthiness treats the stored
empty string like an absent value. -/
theorem getInitial_empty_persisted_counterexample :
    getInitialTheme ⟨true, true⟩ ⟨true, [(THEME_STORAGE_KEY, "")]⟩ =
      .ok ⟨"dark", true⟩ ∧
    (⟨"dark", true⟩ : InitialTheme) ≠ ⟨"", false⟩ :=
  ⟨rfl, by decide⟩

/-- Claim C1 as amended: in a browser with available storage,
getInitialTheme performs exactly this case split: if a NON-EMPTY value is
persisted under the theme key and the persisted use-system flag is not the
string true, it returns that value with source explicit; in every other
case (no persisted theme, an empty persisted theme, or flag equal to true)
it returns the current system signal with source system. -/
theorem getInitial_case_split (pd : Bool) (st : Storage)
    (hA : st.available = true) :
    getInitialTheme ⟨true, pd⟩ st =
      match lookupKey st.items THEME_STORAGE_KEY with
      | some t =>
          if t ≠ "" ∧ lookupKey st.items SYSTEM_PREFERENCE_KEY ≠ some "true"
          then .ok ⟨t, false⟩
          else .ok ⟨getSystemTheme ⟨true, pd⟩, true⟩
      | none => .ok ⟨getSystemTheme ⟨true, pd⟩, true⟩ := by
  cases h : lookupKey st.items THEME_STORAGE_KEY with
  | none => simp [getInitialTheme, Storage.getItem, hA, h, truthy]
  | some t =>
    by_cases ht : t = ""
    · simp [getInitialTheme, Storage.getItem, hA, h, truthy, ht]
    · by_cases hu : lookupKey st.items SYSTEM_PREFERENCE_KEY = some "true"
      · simp [getInitialTheme, Storage.getItem, hA, h, truthy, ht, hu]
      · simp [getInitialTheme, Storage.getItem, hA, h, truthy, ht, hu]

/-- Witness for getInitial_case_split: a persisted dark theme with no flag
resolves to dark with source explicit. -/
theorem getInitial_case_split_witness :
    (⟨true, [(THEME_STORAGE_KEY, "dark")]⟩ : Storage).available = true ∧
    getInitialTheme ⟨true, false⟩ ⟨true, [(THEME_STORAGE_KEY, "dark")]⟩ =
      .ok ⟨"dark", false⟩ :=
  ⟨rfl, getInitial_case_split false ⟨true, [(THEME_STORAGE_KEY, "dark")]⟩ rfl⟩

/-- Claim C2, counterexample: when storage access is unavailable (every
read or write raises), each of the four theme-store operations propagates
the error instead of degrading to an in-memory-only instance: the source
has no try/catch around the localStorage calls. -/
theorem themeStore_unavailable_throws :
    getInitialTheme ⟨true, false⟩ ⟨false, []⟩ = .error () ∧
    setTheme "dark" ⟨"light", true⟩ ⟨false, []⟩ = .error () ∧
    toggleTheme ⟨"light", true⟩ ⟨false, []⟩ = .error () ∧
    resetToSystemPreference ⟨true, false⟩ ⟨"dark", false⟩ ⟨false, []⟩ =
      .error () :=
  ⟨rfl, rfl, rfl, rfl⟩

/-- Claim C2 as amended: as long as storage access succeeds, the theme
store operations getInitialTheme, setTheme, toggleTheme and
resetToSystemPreference never throw; when storage access raises, the error
propagates to the caller (there is no in-memory fallback, except outside a
browser, where getInitialTheme returns light / system without touching
storage). -/
theorem themeStore_no_throw_when_available (env : Env) (s : ProviderState)
    (st : Storage) (m : String) (hA : st.available = true) :
    (∃ r, getInitialTheme env st = .ok r) ∧
    (∃ r, setTheme m s st = .ok r) ∧
    (∃ r, toggleTheme s st = .ok r) ∧
    (∃ r, resetToSystemPreference env s st = .ok r) := by
  refine ⟨?_, ?_, ?_, ?_⟩
  · simp only [getInitialTheme, Storage.getItem, hA, if_true]
    split
    · exact ⟨_, rfl⟩
    · split
      · exact ⟨_, rfl⟩
      · exact ⟨_, rfl⟩
  · exact ⟨(⟨m, false⟩,
      ⟨true, (SYSTEM_PREFERENCE_KEY, "false") :: (THEME_STORAGE_KEY, m) ::
        st.items⟩),
      by simp [setTheme, Storage.setItem, hA]⟩
  · exact ⟨(⟨if s.theme = "light" then "dark" else "light", false⟩,
      ⟨true, (SYSTEM_PREFERENCE_KEY, "false") ::
        (THEME_STORAGE_KEY, if s.theme = "light" then "dark" else "light") ::
        st.items⟩),
      by simp [toggleTheme, setTheme, Storage.setItem, hA]⟩
  · exact ⟨(⟨getSystemTheme env, true⟩,
      ⟨true, (SYSTEM_PREFERENCE_KEY, "true") ::
        st.items.filter (fun p => p.1 ≠ THEME_STORAGE_KEY)⟩),
      by simp [resetToSystemPreference, Storage.removeItem,
        Storage.setItem, hA]⟩

/-- Witness for themeStore_no_throw_when_available at an empty available
storage. -/
theorem themeStore_no_throw_when_available_witness :
    (⟨true, ([] : List (String × String))⟩ : Storage).available = true ∧
    ((∃ r, getInitialTheme ⟨true, true⟩ ⟨true, []⟩ = .ok r) ∧
     (∃ r, setTheme "dark" ⟨"light", true⟩ ⟨true, []⟩ = .ok r) ∧
     (∃ r, toggleTheme ⟨"light", true⟩ ⟨true, []⟩ = .ok r) ∧
     (∃ r, resetToSystemPreference ⟨true, true⟩ ⟨"light", true⟩ ⟨true, []⟩ =
        .ok r)) :=
  ⟨rfl, themeStore_no_throw_when_available ⟨true, true⟩ ⟨"light", true⟩
    ⟨true, []⟩ "dark" rfl⟩

/-- Claim C4: once setTheme has succeeded (source explicit), the
system-signal listener is gone (the guarded effect is not subscribed) and
no sequence of system-signal change events alters the state: the mode
stays the explicitly chosen value. -/
theorem setExplicit_overrides_system (m : String) (s s' : ProviderState)
    (st st' : Storage) (h : setTheme m s st = .ok (s', st')) :
    s'.theme = m ∧ s'.isSystemPreference = false ∧
    subscribedToSystem s' = false ∧
    ∀ bs : List Bool, bs.foldl (fun q b => systemSignalChange b q) s' = s' := by
  have hs : s' = ⟨m, false⟩ := by
    by_cases hA : st.available
    · simp [setTheme, Storage.setItem, hA] at h
      exact h.1.symm
    · simp [setTheme, Storage.setItem, hA] at h
  subst hs
  refine ⟨rfl, rfl, rfl, ?_⟩
  intro bs
  induction bs with
  | nil => rfl
  | cons b rest ih => simpa [systemSignalChange] using ih

/-- Witness for setExplicit_overrides_system: choosing dark explicitly on
an empty available storage, then receiving any system events, leaves the
state at dark / explicit. -/
theorem setExplicit_overrides_system_witness :
    setTheme "dark" ⟨"light", true⟩ ⟨true, []⟩ =
      .ok (⟨"dark", false⟩,
        ⟨true, [(SYSTEM_PREFERENCE_KEY, "false"), (THEME_STORAGE_KEY, "dark")]⟩) ∧
    ((⟨"dark", false⟩ : ProviderState).theme = "dark" ∧
     (⟨"dark", false⟩ : ProviderState).isSystemPreference = false ∧
     subscribedToSystem ⟨"dark", false⟩ = false ∧
     ∀ bs : List Bool,
       bs.foldl (fun q b => systemSignalChange b q) ⟨"dark", false⟩ =
         ⟨"dark", false⟩) :=
  ⟨rfl, setExplicit_overrides_system "dark" ⟨"light", true⟩ ⟨"dark", false⟩
    ⟨true, []⟩
    ⟨true, [(SYSTEM_PREFERENCE_KEY, "false"), (THEME_STORAGE_KEY, "dark")]⟩
    rfl⟩

/-- Claim C5: for every mode m in light / dark and every prior storage
state, a successful setTheme m followed by getInitialTheme in a browser
(simulating a reload, under any system signal) yields mode m with source
explicit. -/
theorem setExplicit_then_getInitial (m : String) (s : ProviderState)
    (st st' : Storage) (s' : ProviderState) (pd : Bool)
    (hm : m = "light" ∨ m = "dark")
    (h : setTheme m s st = .ok (s', st')) :
    getInitialTheme ⟨true, pd⟩ st' = .ok ⟨m, false⟩ := by
  by_cases hA : st.available
  · simp only [setTheme, Storage.setItem, hA, if_true, Except.ok.injEq,
      Prod.mk.injEq] at h
    obtain ⟨-, hst⟩ := h
    have hm' : m ≠ "" := by rcases hm with h | h <;> subst h <;> decide
    simp [← hst, getInitialTheme, Storage.getItem, lookupKey,
      THEME_STORAGE_KEY, SYSTEM_PREFERENCE_KEY, truthy, hm']
  · simp [setTheme, Storage.setItem, hA] at h

/-- Witness for setExplicit_then_getInitial: setTheme dark on an empty
storage, then a reload with a light system signal, still resolves to dark
with source explicit. -/
theorem setExplicit_then_getInitial_witness :
    (("dark" : String) = "light" ∨ ("dark" : String) = "dark") ∧
    setTheme "dark" ⟨"light", true⟩ ⟨true, []⟩ =
      .ok (⟨"dark", false⟩,
        ⟨true, [(SYSTEM_PREFERENCE_KEY, "false"), (THEME_STORAGE_KEY, "dark")]⟩) ∧
    getInitialTheme ⟨true, false⟩
      ⟨true, [(SYSTEM_PREFERENCE_KEY, "false"), (THEME_STORAGE_KEY, "dark")]⟩ =
      .ok ⟨"dark", false⟩ :=
  ⟨Or.inr rfl, rfl,
    setExplicit_then_getInitial "dark" ⟨"light", true⟩ ⟨true, []⟩
      ⟨true, [(SYSTEM_PREFERENCE_KEY, "false"), (THEME_STORAGE_KEY, "dark")]⟩
      ⟨"dark", false⟩ false (Or.inr rfl) rfl⟩

/-- Claim C6: toggleTheme is setTheme of the opposite of the current mode,
and on an available storage with current mode light or dark it yields the
opposite mode with source explicit, persists it (theme key set to the new
mode, use-system flag set to false), and a second toggleTheme returns the
mode to its original value. -/
theorem toggle_is_setExplicit_opposite (s : ProviderState) (st : Storage)
    (hA : st.available = true) (hm : s.theme = "light" ∨ s.theme = "dark") :
    toggleTheme s st =
      setTheme (if s.theme = "light" then "dark" else "light") s st ∧
    ∃ s' st' s'' st'',
      toggleTheme s st = .ok (s', st') ∧
      s'.theme = (if s.theme = "light" then "dark" else "light") ∧
      s'.isSystemPreference = false ∧
      lookupKey st'.items THEME_STORAGE_KEY = some s'.theme ∧
      lookupKey st'.items SYSTEM_PREFERENCE_KEY = some "false" ∧
      toggleTheme s' st' = .ok (s'', st'') ∧
      s''.theme = s.theme := by
  refine ⟨rfl, ?_⟩
  rcases hm with hl | hd
  · refine ⟨⟨"dark", false⟩,
      ⟨true, (SYSTEM_PREFERENCE_KEY, "false") :: (THEME_STORAGE_KEY, "dark") ::
        st.items⟩,
      ⟨"light", false⟩,
      ⟨true, (SYSTEM_PREFERENCE_KEY, "false") :: (THEME_STORAGE_KEY, "light") ::
        (SYSTEM_PREFERENCE_KEY, "false") :: (THEME_STORAGE_KEY, "dark") ::
        st.items⟩,
      ?_, ?_, rfl, ?_, ?_, ?_, ?_⟩ <;>
    simp [toggleTheme, setTheme, Storage.setItem, lookupKey, hA, hl,
      THEME_STORAGE_KEY, SYSTEM_PREFERENCE_KEY]
  · refine ⟨⟨"light", false⟩,
      ⟨true, (SYSTEM_PREFERENCE_KEY, "false") :: (THEME_STORAGE_KEY, "light") ::
        st.items⟩,
      ⟨"dark", false⟩,
      ⟨true, (SYSTEM_PREFERENCE_KEY, "false") :: (THEME_STORAGE_KEY, "dark") ::
        (SYSTEM_PREFERENCE_KEY, "false") :: (THEME_STORAGE_KEY, "light") ::
        st.items⟩,
      ?_, ?_, rfl, ?_, ?_, ?_, ?_⟩ <;>
    simp [toggleTheme, setTheme, Storage.setItem, lookupKey, hA, hd,
      THEME_STORAGE_KEY, SYSTEM_PREFERENCE_KEY]

/-- Witness for toggle_is_setExplicit_opposite: from light on an empty
available storage. -/
theorem toggle_is_setExplicit_opposite_witness :
    (⟨true, ([] : List (String × String))⟩ : Storage).available = true ∧
    ((⟨"light", true⟩ : ProviderState).theme = "light" ∨
      (⟨"light", true⟩ : ProviderState).theme = "dark") ∧
    (toggleTheme ⟨"light", true⟩ ⟨true, []⟩ =
      setTheme (if ("light" : String) = "light" then "dark" else "light")
        ⟨"light", true⟩ ⟨true, []⟩ ∧
    ∃ s' st' s'' st'',
      toggleTheme ⟨"light", true⟩ ⟨true, []⟩ = .ok (s', st') ∧
      s'.theme = (if ("light" : String) = "light" then "dark" else "light") ∧
      s'.isSystemPreference = false ∧
      lookupKey st'.items THEME_STORAGE_KEY = some s'.theme ∧
      lookupKey st'.items SYSTEM_PREFERENCE_KEY = some "false" ∧
      toggleTheme s' st' = .ok (s'', st'') ∧
      s''.theme = "light") :=
  ⟨rfl, Or.inl rfl,
    toggle_is_setExplicit_opposite ⟨"light", true⟩ ⟨true, []⟩ rfl (Or.inl rfl)⟩

/-- Claim C7: on an available storage, resetToSystemPreference removes the
persisted theme key, writes the use-system flag, marks the source as
system, immediately resyncs the mode to the current system signal, and the
system-signal listener is re-established: every subsequent system-signal
change is reflected live in the mode, and the state keeps following the
signal. -/
theorem reset_resyncs_to_system (env : Env) (s : ProviderState)
    (st : Storage) (hA : st.available = true) :
    ∃ s' st',
      resetToSystemPreference env s st = .ok (s', st') ∧
      lookupKey st'.items THEME_STORAGE_KEY = none ∧
      lookupKey st'.items SYSTEM_PREFERENCE_KEY = some "true" ∧
      s'.isSystemPreference = true ∧
      s'.theme = getSystemTheme env ∧
      subscribedToSystem s' = true ∧
      (∀ b, (systemSignalChange b s').theme = if b then "dark" else "light") ∧
      (∀ b, subscribedToSystem (systemSignalChange b s') = true) := by
  refine ⟨⟨getSystemTheme env, true⟩,
    ⟨true, (SYSTEM_PREFERENCE_KEY, "true") ::
      st.items.filter (fun p => p.1 ≠ THEME_STORAGE_KEY)⟩,
    ?_, ?_, ?_, rfl, rfl, rfl, ?_, ?_⟩
  · simp [resetToSystemPreference, Storage.removeItem, Storage.setItem, hA]
  · simpa [lookupKey, THEME_STORAGE_KEY, SYSTEM_PREFERENCE_KEY] using
      lookupKey_filter_self st.items THEME_STORAGE_KEY
  · simp [lookupKey]
  · intro b
    simp [systemSignalChange]
  · intro b
    simp [systemSignalChange, subscribedToSystem]

/-- Witness for reset_resyncs_to_system: reset after an explicit dark
choice, with a dark system signal. -/
theorem reset_resyncs_to_system_witness :
    (⟨true, [(THEME_STORAGE_KEY, "dark"), (SYSTEM_PREFERENCE_KEY, "false")]⟩ :
      Storage).available = true ∧
    ∃ s' st',
      resetToSystemPreference ⟨true, true⟩ ⟨"dark", false⟩
        ⟨true, [(THEME_STORAGE_KEY, "dark"), (SYSTEM_PREFERENCE_KEY, "false")]⟩ =
        .ok (s', st') ∧
      lookupKey st'.items THEME_STORAGE_KEY = none ∧
      lookupKey st'.items SYSTEM_PREFERENCE_KEY = some "true" ∧
      s'.isSystemPreference = true ∧
      s'.theme = getSystemTheme ⟨true, true⟩ ∧
      subscribedToSystem s' = true ∧
      (∀ b, (systemSignalChange b s').theme = if b then "dark" else "light") ∧
      (∀ b, subscribedToSystem (systemSignalChange b s') = true) :=
  ⟨rfl,
    reset_resyncs_to_system ⟨true, true⟩ ⟨"dark", false⟩
      ⟨true, [(THEME_STORAGE_KEY, "dark"), (SYSTEM_PREFERENCE_KEY, "false")]⟩
      rfl⟩

/-- Claim C3, counterexample: with an empty access key (missing
configuration) the handler surfaces an error status, but schedules no
reset-to-idle timeout: that branch returns before any setTimeout, so the
error status is not auto-cleared after a fixed delay. -/
theorem contactSubmit_missing_key_counterexample :
    (handleSubmit "" (.response true none) ⟨⟨"a", "b@c", "hi"⟩, .idle, ""⟩).1.status =
      .error ∧
    (handleSubmit "" (.response true none) ⟨⟨"a", "b@c", "hi"⟩, .idle, ""⟩).2 =
      none :=
  ⟨rfl, rfl⟩

/-- Claim C3 as amended: the handler always returns normally (the resulting
status is a terminal success or error, never fatal to the page); the status
is error exactly on the error outcomes (missing access key, network
failure, or non-success response); a reset-to-idle timeout of 5000 ms is
scheduled exactly when the access key is configured — so network failures
and non-success responses are auto-cleared after the fixed delay, while the
missing-configuration error persists until the user dismisses it. -/
theorem contactSubmit_error_spec (key : String) (outcome : FetchOutcome)
    (s : ContactState) :
    ((handleSubmit key outcome s).1.status = .error ∨
      (handleSubmit key outcome s).1.status = .success) ∧
    ((handleSubmit key outcome s).1.status = .error ↔
      (key = "" ∨ outcome.isSuccess = false)) ∧
    ((handleSubmit key outcome s).2 = if key = "" then none else some 5000) := by
  by_cases hk : key = ""
  · simp [handleSubmit, hk]
  · cases outcome with
    | networkError msg => simp [handleSubmit, hk, FetchOutcome.isSuccess]
    | response b msg =>
      cases b <;> simp [handleSubmit, hk, FetchOutcome.isSuccess]

/-- Claim C9: the handler leaves the three form fields unchanged on every
outcome except success, clears all three fields to empty strings exactly on
the success outcome, and the success outcome is exactly a configured access
key together with a response whose JSON has success true. -/
theorem contactSubmit_formData_spec (key : String) (outcome : FetchOutcome)
    (s : ContactState) :
    ((handleSubmit key outcome s).1.formData =
      if (handleSubmit key outcome s).1.status = .success then ⟨"", "", ""⟩
      else s.formData) ∧
    ((handleSubmit key outcome s).1.status = .success ↔
      (¬ key = "" ∧ outcome.isSuccess = true)) := by
  by_cases hk : key = ""
  · simp [handleSubmit, hk]
  · cases outcome with
    | networkError msg => simp [handleSubmit, hk, FetchOutcome.isSuccess]
    | response b msg =>
      cases b <;> simp [handleSubmit, hk, FetchOutcome.isSuccess]

end Portfolio
